import Mathlib

/-!
Verification development for the SOLA Vatzka Max 65 backend
(`src/main.py`, `src/schemas.py`).

The HTTP handlers and the pydantic models are shallowly embedded:

* JSON request payloads are values of `JVal`; a model payload is a record of
  `Option JVal` fields (a missing key is `none`; unknown extra keys are ignored
  by pydantic and hence never modelled).
* Pydantic v2 default ("lax") validation is embedded per field: a `str` field
  accepts exactly JSON strings; an `int` field accepts JSON integers and
  numeric strings (sign + digits), which it coerces to the integer value.
  Validation failures carry the list of failing field names, in declaration
  order, matching the field-level detail of a pydantic `ValidationError`.
* The document store (`database.py` is not part of `src/`; only its callers
  are) is modelled from the spec: `create_document` assigns a fresh identifier
  and appends the record to the kind-named collection, `get_documents` returns
  the records of a kind matching an exact-match filter, capped by a limit.
* Handler outcomes are `Except ApiError`: `ApiError.validationError` is a
  request-boundary rejection (pydantic/FastAPI 422 with field detail), and
  `ApiError.internalError` is an exception raised inside the handler body that
  no code catches (surfaced by the framework as a server error).
-/

/-- JSON values, restricted to the fragment exercised by the API payloads. -/
inductive JVal where
  | jnull : JVal
  | jint (n : Int) : JVal
  | jstr (s : String) : JVal
  | jlist (xs : List JVal) : JVal
deriving Repr

/-- Runtime (Python-side) values as stored in documents. `voidRef` is the
identifier representation internal to the store (e.g. an ObjectId), carrying
the string it renders to. -/
inductive DVal where
  | vnull : DVal
  | vint (n : Int) : DVal
  | vstr (s : String) : DVal
  | vlist (xs : List DVal) : DVal
  | voidRef (s : String) : DVal
deriving Repr

/-- A document is an ordered association of field names to values, as a Python
dict with string keys. -/
abbrev Doc := List (String × DVal)

/-- Python `str()` applied to a document value: a string renders to itself,
`None` to `"None"`, and the store-internal identifier to its string form. -/
def pyStr : DVal → String
  | .vnull => "None"
  | .vint n => toString n
  | .vstr s => s
  | .vlist _ => "<list>"
  | .voidRef s => s

/-- Python dict assignment `d[k] = v`: an existing key keeps its position, a
new key is appended at the end. -/
def setField (d : Doc) (k : String) (v : DVal) : Doc :=
  if d.any (fun kv => kv.1 = k) then
    d.map (fun kv => if kv.1 = k then (k, v) else kv)
  else
    d ++ [(k, v)]

/-- Pydantic v2 lax coercion of a JSON value to `int`: integers pass through;
a string consisting of an optional sign followed by digits is parsed. -/
def parseIntString (s : String) : Option Int :=
  let signDigits : Int × List Char :=
    match s.data with
    | '-' :: rest => (-1, rest)
    | '+' :: rest => (1, rest)
    | cs => (1, cs)
  if signDigits.2 ≠ [] ∧ signDigits.2.all Char.isDigit then
    some (signDigits.1 *
      (signDigits.2.foldl (fun acc c => acc * 10 + (c.toNat - '0'.toNat)) 0 : Nat))
  else
    none

/-- Lax validation of an `int` field value (pydantic v2 default mode). -/
def laxInt : JVal → Option Int
  | .jint n => some n
  | .jstr s => parseIntString s
  | _ => none

/-- Merge two field validation results, concatenating the failing field
names, as pydantic reports every invalid field of a payload. -/
def vmap2 : Except (List String) α → Except (List String) β →
    Except (List String) (α × β)
  | .ok a, .ok b => .ok (a, b)
  | .error e, .ok _ => .error e
  | .ok _, .error f => .error f
  | .error e, .error f => .error (e ++ f)

/-- Required `str` field: present JSON strings only. -/
def reqStr (name : String) : Option JVal → Except (List String) String
  | some (.jstr s) => .ok s
  | _ => .error [name]

/-- Optional `str` field with a default (`currency: str = "USD"` style):
absent falls back to the default; present must be a JSON string. -/
def optStrD (name : String) (dflt : String) :
    Option JVal → Except (List String) String
  | none => .ok dflt
  | some (.jstr s) => .ok s
  | some _ => .error [name]

/-- `Optional[str] = None` field: absent or JSON null gives `none`; present
must otherwise be a JSON string. -/
def optNullStr (name : String) :
    Option JVal → Except (List String) (Option String)
  | none => .ok none
  | some .jnull => .ok none
  | some (.jstr s) => .ok (some s)
  | some _ => .error [name]

/-- Required `int` field without bounds (lax mode). -/
def reqLaxInt (name : String) : Option JVal → Except (List String) Int
  | none => .error [name]
  | some v =>
    match laxInt v with
    | some n => .ok n
    | none => .error [name]

/-- `int` field with a default and `ge`/`le` bounds (`bpm: int =
Field(120, ge=40, le=300)` style). The default is not re-validated, matching
pydantic, whose `validate_default` is off. -/
def optIntBounded (name : String) (dflt lo hi : Int) :
    Option JVal → Except (List String) Int
  | none => .ok dflt
  | some v =>
    match laxInt v with
    | some n => if lo ≤ n ∧ n ≤ hi then .ok n else .error [name]
    | none => .error [name]

/-- Elementwise `str` check for a `List[str]` field value. -/
def allStrings : List JVal → Option (List String)
  | [] => some []
  | .jstr s :: rest => (allStrings rest).map (fun ss => s :: ss)
  | _ => none

/-- `List[str]` field with `default_factory=list`: absent gives `[]`; present
must be a JSON array of strings. -/
def optStrList (name : String) :
    Option JVal → Except (List String) (List String)
  | none => .ok []
  | some (.jlist xs) =>
    match allStrings xs with
    | some ss => .ok ss
    | none => .error [name]
  | some _ => .error [name]

/-! ## Pydantic models (`src/schemas.py`) -/

/-- `Channel`: realtime comm channel; `name: str = Field(...)`,
`topic: Optional[str] = Field(None)`. -/
structure Channel where
  name : String
  topic : Option String
deriving DecidableEq, Repr

/-- JSON payload for a `Channel` create request. -/
structure ChannelPayload where
  name : Option JVal
  topic : Option JVal
deriving Repr

/-- Pydantic validation of a `Channel` payload, field constraints exactly as
declared in `src/schemas.py` lines 43-46. -/
def Channel.validate (p : ChannelPayload) : Except (List String) Channel :=
  match vmap2 (reqStr "name" p.name) (optNullStr "topic" p.topic) with
  | .ok (n, t) => .ok ⟨n, t⟩
  | .error e => .error e

/-- `Project`: music project metadata; `title: str`,
`bpm: int = Field(120, ge=40, le=300)`, `key: str = Field("C Major")`,
`tracks: List[str] = Field(default_factory=list)`. -/
structure Project where
  title : String
  bpm : Int
  key : String
  tracks : List String
deriving DecidableEq, Repr

/-- JSON payload for a `Project` create request. -/
structure ProjectPayload where
  title : Option JVal
  bpm : Option JVal
  key : Option JVal
  tracks : Option JVal
deriving Repr

/-- Pydantic validation of a `Project` payload, field constraints exactly as
declared in `src/schemas.py` lines 63-68. -/
def Project.validate (p : ProjectPayload) : Except (List String) Project :=
  match vmap2 (vmap2 (reqStr "title" p.title)
                     (optIntBounded "bpm" 120 40 300 p.bpm))
              (vmap2 (optStrD "key" "C Major" p.key)
                     (optStrList "tracks" p.tracks)) with
  | .ok ((t, b), (k, tr)) => .ok ⟨t, b, k, tr⟩
  | .error e => .error e

/-- `CreatePaymentRequest` (request body model in `src/main.py` lines
137-141): `user_email: str`, `plan: str`, `amount_cents: int` with NO bound,
`currency: str = "USD"`. -/
structure CreatePaymentRequest where
  user_email : String
  plan : String
  amount_cents : Int
  currency : String
deriving DecidableEq, Repr

/-- JSON payload for `POST /payments/intent`. -/
structure PaymentPayload where
  user_email : Option JVal
  plan : Option JVal
  amount_cents : Option JVal
  currency : Option JVal
deriving Repr

/-- FastAPI request-boundary validation of the `POST /payments/intent` body
against `CreatePaymentRequest`; a failure here is a 422 client error with
field-level detail. -/
def CreatePaymentRequest.validate (p : PaymentPayload) :
    Except (List String) CreatePaymentRequest :=
  match vmap2 (vmap2 (reqStr "user_email" p.user_email)
                     (reqStr "plan" p.plan))
              (vmap2 (reqLaxInt "amount_cents" p.amount_cents)
                     (optStrD "currency" "USD" p.currency)) with
  | .ok ((e, pl), (a, c)) => .ok ⟨e, pl, a, c⟩
  | .error e => .error e

/-- `PaymentIntent` (`src/schemas.py` lines 55-61): `amount_cents` carries
`ge=0`; `currency` defaults to `"USD"`, `status` to `"created"`. -/
structure PaymentIntent where
  user_email : String
  plan : String
  amount_cents : Int
  currency : String
  status : String
deriving DecidableEq, Repr

/-- Construction of `PaymentIntent(...)` inside the handler body
(`src/main.py` lines 145-151): every argument is already of the right Python
type, so only the `ge=0` bound on `amount_cents` can fail; `status` is passed
explicitly as `"created"`. A failure is a pydantic `ValidationError` raised
inside the handler. -/
def mkPaymentIntent (r : CreatePaymentRequest) :
    Except (List String) PaymentIntent :=
  if 0 ≤ r.amount_cents then
    .ok ⟨r.user_email, r.plan, r.amount_cents, r.currency, "created"⟩
  else
    .error ["amount_cents"]

/-- Serialization of a validated `PaymentIntent` to the document handed to the
store. -/
def PaymentIntent.toDoc (i : PaymentIntent) : Doc :=
  [("user_email", .vstr i.user_email), ("plan", .vstr i.plan),
   ("amount_cents", .vint i.amount_cents), ("currency", .vstr i.currency),
   ("status", .vstr i.status)]

/-! ## Record store (`database.py` is not under `src/`; modelled from the
spec, sections 4.2 and 9 of `spec.md`) -/

mutual

/-- Boolean equality on document values, used for exact-match filters. -/
def DVal.beq : DVal → DVal → Bool
  | .vnull, .vnull => true
  | .vint a, .vint b => a == b
  | .vstr a, .vstr b => a == b
  | .vlist xs, .vlist ys => DVal.beqList xs ys
  | .voidRef a, .voidRef b => a == b
  | _, _ => false

/-- Boolean equality on lists of document values. -/
def DVal.beqList : List DVal → List DVal → Bool
  | [], [] => true
  | a :: as, b :: bs => DVal.beq a b && DVal.beqList as bs
  | _, _ => false

end

/-- The store state: a counter for fresh identifiers and the per-kind
collections, keyed by the lower-cased kind name. -/
structure Store where
  nextId : Nat
  colls : List (String × List Doc)

/-- Lookup of the collection of a kind; a kind never written is empty. -/
def collGet : List (String × List Doc) → String → List Doc
  | [], _ => []
  | (k, ds) :: rest, kind => if k = kind then ds else collGet rest kind

/-- Append of a document to the collection of a kind. -/
def collAdd : List (String × List Doc) → String → Doc → List (String × List Doc)
  | [], kind, d => [(kind, [d])]
  | (k, ds) :: rest, kind, d =>
    if k = kind then (k, ds ++ [d]) :: rest else (k, ds) :: collAdd rest kind d

/-- Collection of a kind in a store state. -/
def Store.get (s : Store) (kind : String) : List Doc := collGet s.colls kind

/-- Modelled from the spec: `database.create_document` (spec section 4.2):
assigns a new globally-unique identifier, persists the record verbatim plus
the identifier under the kind-named collection, and returns the identifier.
The identifier is stored in its internal representation (`DVal.voidRef`). -/
def create_document (kind : String) (record : Doc) (s : Store) :
    String × Store :=
  let id := "oid" ++ toString s.nextId
  (id, ⟨s.nextId + 1, collAdd s.colls kind (record ++ [("_id", .voidRef id)])⟩)

/-- Exact-match check of a document against a filter mapping. -/
def matchesFilter (filt : List (String × DVal)) (d : Doc) : Bool :=
  filt.all fun kv =>
    match d.lookup kv.1 with
    | some v => DVal.beq v kv.2
    | none => false

/-- Modelled from the spec: `database.get_documents` (spec section 4.2):
returns the records of the kind satisfying the exact-match filter, capped by
the limit, in insertion order. -/
def get_documents (kind : String) (filt : List (String × DVal)) (limit : Int)
    (s : Store) : List Doc :=
  ((s.get kind).filter (matchesFilter filt)).take limit.toNat

/-! ## HTTP handlers (`src/main.py`) -/

/-- Handler failure outcomes. `validationError` is a request-boundary
rejection by FastAPI/pydantic, surfaced as a 422 client error carrying the
failing field names. `internalError` is an exception raised inside the
handler body that nothing catches, surfaced by the framework as a 500 server
error. -/
inductive ApiError where
  | validationError (fields : List String)
  | internalError (fields : List String)
deriving DecidableEq, Repr

/-- Recognizer for the client-error validation outcome. -/
def isClientValidationError : Except ApiError α → Bool
  | .error (.validationError _) => true
  | _ => false

/-- The in-place loop of the list handlers: `d["_id"] = str(d.get("_id"))`
(`src/main.py` lines 85-86, 98-99, 112-113, 126-127). -/
def stringifyId (d : Doc) : Doc :=
  setField d "_id" (.vstr (pyStr ((d.lookup "_id").getD .vnull)))

/-- `GET /channels` (`src/main.py` lines 82-87): `limit` is validated by
`Query(20, ge=1, le=100)` before the body runs; the body fetches the channel
documents and replaces each `_id` by its string form. -/
def list_channels (limit : Int) (s : Store) : Except ApiError (List Doc) :=
  if 1 ≤ limit ∧ limit ≤ 100 then
    .ok ((get_documents "channel" [] limit s).map stringifyId)
  else
    .error (.validationError ["limit"])

/-- `GET /messages` (`src/main.py` lines 94-100): `limit` is validated by
`Query(50, ge=1, le=200)`; the filter is `{"channel_id": channel_id} if
channel_id else {}` — a missing channel_id and an empty-string channel_id are
both falsy, giving the empty filter. -/
def list_messages (channel_id : Option String) (limit : Int) (s : Store) :
    Except ApiError (List Doc) :=
  if 1 ≤ limit ∧ limit ≤ 200 then
    let filt : List (String × DVal) :=
      match channel_id with
      | some cid => if cid = "" then [] else [("channel_id", .vstr cid)]
      | none => []
    .ok ((get_documents "message" filt limit s).map stringifyId)
  else
    .error (.validationError ["limit"])

/-- `GET /projects` (`src/main.py` lines 109-114): `limit` is validated by
`Query(20, ge=1, le=100)`. -/
def list_projects (limit : Int) (s : Store) : Except ApiError (List Doc) :=
  if 1 ≤ limit ∧ limit ≤ 100 then
    .ok ((get_documents "project" [] limit s).map stringifyId)
  else
    .error (.validationError ["limit"])

/-- `GET /devices` (`src/main.py` lines 123-128): `limit` is validated by
`Query(50, ge=1, le=200)`. -/
def list_devices (limit : Int) (s : Store) : Except ApiError (List Doc) :=
  if 1 ≤ limit ∧ limit ≤ 200 then
    .ok ((get_documents "device" [] limit s).map stringifyId)
  else
    .error (.validationError ["limit"])

/-- Response body of `POST /payments/intent`. -/
structure PaymentResponse where
  id : String
  status : String
deriving DecidableEq, Repr

/-- `POST /payments/intent` (`src/main.py` lines 143-153): FastAPI first
validates the body against `CreatePaymentRequest` (422 on failure); the body
then constructs `PaymentIntent(...)` — whose `ge=0` bound on `amount_cents`
can raise an uncaught `ValidationError`, a server error — persists it, and
answers `{"id": _id, "status": "created"}`. -/
def create_payment_intent (p : PaymentPayload) (s : Store) :
    Except ApiError (PaymentResponse × Store) :=
  match CreatePaymentRequest.validate p with
  | .error fs => .error (.validationError fs)
  | .ok req =>
    match mkPaymentIntent req with
    | .error fs => .error (.internalError fs)
    | .ok intent =>
      let (id, s') := create_document "paymentintent" intent.toDoc s
      .ok (⟨id, "created"⟩, s')

/-! ## Schema introspection (`src/main.py` lines 67-78) -/

/-- Static description of a pydantic model: its Python class name and the
keys of `model_fields` in declaration order. -/
structure ModelDesc where
  pyName : String
  fields : List String
deriving DecidableEq, Repr

/-- `Channel` model metadata (`src/schemas.py` lines 43-46). -/
def channelDesc : ModelDesc := ⟨"Channel", ["name", "topic"]⟩

/-- `Message` model metadata (`src/schemas.py` lines 48-53). -/
def messageDesc : ModelDesc :=
  ⟨"Message", ["channel_id", "sender", "text", "voice_url"]⟩

/-- `PaymentIntent` model metadata (`src/schemas.py` lines 55-61). -/
def paymentIntentDesc : ModelDesc :=
  ⟨"PaymentIntent", ["user_email", "plan", "amount_cents", "currency", "status"]⟩

/-- `Project` model metadata (`src/schemas.py` lines 63-68). -/
def projectDesc : ModelDesc := ⟨"Project", ["title", "bpm", "key", "tracks"]⟩

/-- `Device` model metadata (`src/schemas.py` lines 70-74). -/
def deviceDesc : ModelDesc :=
  ⟨"Device", ["name", "manufacturer", "connection"]⟩

/-- `User` model metadata (`src/schemas.py` lines 19-28); not exposed by
`get_schema`. -/
def userDesc : ModelDesc :=
  ⟨"User", ["name", "email", "address", "age", "is_active"]⟩

/-- `Product` model metadata (`src/schemas.py` lines 30-39); not exposed by
`get_schema`. -/
def productDesc : ModelDesc :=
  ⟨"Product", ["title", "description", "price", "category", "in_stock"]⟩

/-- One entry of the `GET /schema` response. -/
structure SchemaResponse where
  name : String
  fields : List String
deriving DecidableEq, Repr

/-- Python `str.lower()` on ASCII class names, characterwise. -/
def pyLower (s : String) : String := ⟨s.data.map Char.toLower⟩

/-- `GET /schema` (`src/main.py` lines 72-78): iterates over
`[Channel, Message, PaymentIntent, Project, Device]` and emits
`m.__name__.lower()` with `list(m.model_fields.keys())`. -/
def get_schema : List SchemaResponse :=
  [channelDesc, messageDesc, paymentIntentDesc, projectDesc, deviceDesc].map
    fun m => ⟨pyLower m.pyName, m.fields⟩

/-! ## Diagnostic probe (`src/main.py` lines 31-64) -/

/-- Handle to the database as seen by `main.py`: `db` may be absent (the
store unconfigured, `db is None`); a present handle has an optional `name`
attribute and a `list_collection_names()` call that either returns names or
raises (modelled as `Except`, the message being the exception text). -/
structure DBHandle where
  name : Option String
  listCollectionNames : Except String (List String)

/-- Relevant process environment: the values of `DATABASE_URL` and
`DATABASE_NAME` (`none` when unset). -/
structure Env where
  databaseUrl : Option String
  databaseName : Option String

/-- Python truthiness of `os.getenv(...)`: unset (`None`) and the empty
string are both falsy. -/
def envTruthy : Option String → Bool
  | none => false
  | some s => s ≠ ""

/-- Response payload of `GET /test`. The url and name slots are
`Option String` because the code initializes them to `None`. -/
structure TestReport where
  backend : String
  database : String
  database_url : Option String
  database_name : Option String
  connection_status : String
  collections : List String
deriving DecidableEq, Repr

/-- `GET /test` (`src/main.py` lines 31-64), statement by statement: the
response starts from the not-available defaults; if `db` is present the
status fields are upgraded and `list_collection_names()` is attempted, any
exception being captured into the `database` string (the code catches every
exception — nothing escapes); finally `database_url` and `database_name` are
unconditionally overwritten with presence-only markers derived from the
environment, so no configuration value ever reaches the response. -/
def test_database (db : Option DBHandle) (env : Env) : TestReport :=
  let base : TestReport :=
    ⟨"✅ Running", "❌ Not Available", none, none, "Not Connected", []⟩
  let r :=
    match db with
    | some h =>
      let r1 := { base with
        database := "✅ Available"
        database_url := some "✅ Configured"
        database_name := some (h.name.getD "✅ Connected")
        connection_status := "Connected" }
      match h.listCollectionNames with
      | .ok cs =>
        { r1 with collections := cs.take 10, database := "✅ Connected & Working" }
      | .error e =>
        { r1 with database := "⚠️  Connected but Error: " ++ e.take 50 }
    | none => { base with database := "⚠️  Available but not initialized" }
  { r with
    database_url := some (if envTruthy env.databaseUrl then "✅ Set" else "❌ Not Set")
    database_name := some (if envTruthy env.databaseName then "✅ Set" else "❌ Not Set") }

/-- Success recognizer for handler and validation outcomes. -/
def isOkResult : Except ε α → Bool
  | .ok _ => true
  | .error _ => false

/-! ## Theorems -/

/-- C4: `GET /schema` returns exactly one entry for each of Channel, Message,
PaymentIntent, Project, Device, each entry listing exactly the declared field
names of that model in declaration order; User and Product do not appear. -/
theorem c4_schema_exact_fields :
    get_schema =
      [⟨"channel", ["name", "topic"]⟩,
       ⟨"message", ["channel_id", "sender", "text", "voice_url"]⟩,
       ⟨"paymentintent",
        ["user_email", "plan", "amount_cents", "currency", "status"]⟩,
       ⟨"project", ["title", "bpm", "key", "tracks"]⟩,
       ⟨"device", ["name", "manufacturer", "connection"]⟩] ∧
    (get_schema.map SchemaResponse.name).contains (pyLower userDesc.pyName)
      = false ∧
    (get_schema.map SchemaResponse.name).contains (pyLower productDesc.pyName)
      = false := by
  refine ⟨?_, ?_, ?_⟩ <;> decide

/-- C3, counterexample: a `POST /channels` payload whose `name` is the empty
string passes validation — the `Channel` model declares `name: str` with no
minimum length, so the claim that it is rejected is false. -/
theorem c3_counterexample :
    Channel.validate ⟨some (.jstr ""), none⟩ = .ok ⟨"", none⟩ ∧
    isOkResult (Channel.validate ⟨some (.jstr ""), none⟩) = true := by
  exact ⟨rfl, rfl⟩

/-- C3, amended: a Channel `name` is required but may be any string, the
empty string included; a payload missing `name` is rejected with `name` as
the failing field. -/
theorem c3_empty_name_accepted (t : String) :
    Channel.validate ⟨some (.jstr t), none⟩ = .ok ⟨t, none⟩ ∧
    Channel.validate ⟨some (.jstr ""), none⟩ = .ok ⟨"", none⟩ ∧
    Channel.validate ⟨none, none⟩ = .error ["name"] := by
  exact ⟨rfl, rfl, rfl⟩

/-- C2, counterexample: a `POST /projects` payload giving `bpm` as the
numeric string `"128"` is accepted, with `bpm` coerced to the integer 128 —
pydantic v2 lax mode coerces numeric strings to integers, so the claim that
only exact type matches are accepted is false. -/
theorem c2_counterexample :
    Project.validate ⟨some (.jstr "Demo"), some (.jstr "128"), none, none⟩
      = .ok ⟨"Demo", 128, "C Major", []⟩ := by
  rfl

/-- C2, amended: a numeric string supplied for a declared integer field IS
coerced to the integer it denotes (pydantic v2 lax mode); a Project payload
whose `bpm` is the decimal string of an in-range integer is accepted with
`bpm` equal to that integer. -/
theorem c2_numeric_string_coerced (t s : String) (n : Int)
    (hp : parseIntString s = some n) (h1 : 40 ≤ n) (h2 : n ≤ 300) :
    Project.validate ⟨some (.jstr t), some (.jstr s), none, none⟩
      = .ok ⟨t, n, "C Major", []⟩ := by
  simp [Project.validate, reqStr, optIntBounded, laxInt, hp, optStrD,
    optStrList, vmap2, h1, h2]

/-- C2, witness for the amended theorem at a concrete in-range numeric
string. -/
theorem c2_numeric_string_coerced_witness :
    Project.validate ⟨some (.jstr "W"), some (.jstr "250"), none, none⟩
      = .ok ⟨"W", 250, "C Major", []⟩ :=
  c2_numeric_string_coerced "W" "250" 250 (by decide) (by decide) (by decide)

/-- C6: a `POST /projects` payload with an integer `bpm` is accepted exactly
when `bpm` lies in `[40, 300]`, rejected with `bpm` as the failing field
otherwise, and an omitted `bpm` validates to the default 120. -/
theorem c6_project_bpm_bounds (t : String) (n : Int) :
    (isOkResult (Project.validate ⟨some (.jstr t), some (.jint n), none, none⟩)
        = true ↔ 40 ≤ n ∧ n ≤ 300) ∧
    (40 ≤ n → n ≤ 300 →
      Project.validate ⟨some (.jstr t), some (.jint n), none, none⟩
        = .ok ⟨t, n, "C Major", []⟩) ∧
    (¬(40 ≤ n ∧ n ≤ 300) →
      Project.validate ⟨some (.jstr t), some (.jint n), none, none⟩
        = .error ["bpm"]) ∧
    Project.validate ⟨some (.jstr t), none, none, none⟩
      = .ok ⟨t, 120, "C Major", []⟩ := by
  by_cases h : 40 ≤ n ∧ n ≤ 300
  · refine ⟨?_, ?_, ?_, rfl⟩
    · simp [Project.validate, reqStr, optIntBounded, laxInt, optStrD,
        optStrList, vmap2, h, isOkResult]
    · intro h1 h2
      simp [Project.validate, reqStr, optIntBounded, laxInt, optStrD,
        optStrList, vmap2, h]
    · intro hc; exact absurd h hc
  · refine ⟨?_, ?_, ?_, rfl⟩
    · simp [Project.validate, reqStr, optIntBounded, laxInt, optStrD,
        optStrList, vmap2, h, isOkResult]
    · intro h1 h2; exact absurd ⟨h1, h2⟩ h
    · intro hc
      simp [Project.validate, reqStr, optIntBounded, laxInt, optStrD,
        optStrList, vmap2, h]

/-- C6, witness: the concrete in-range payload `{"title":"Demo","bpm":128}`
validates to the record with `bpm = 128`. -/
theorem c6_project_bpm_bounds_witness :
    Project.validate ⟨some (.jstr "Demo"), some (.jint 128), none, none⟩
      = .ok ⟨"Demo", 128, "C Major", []⟩ :=
  (c6_project_bpm_bounds "Demo" 128).2.1 (by decide) (by decide)

/-- C10: `GET /messages` with `channel_id` equal to the empty string behaves
exactly as with `channel_id` omitted — the empty string is falsy in the
filter-building conditional, so no filter is applied. -/
theorem c10_empty_channel_id_unfiltered (sto : Store) (limit : Int) :
    list_messages (some "") limit sto = list_messages none limit sto := by
  rfl

/-- Replacement of the value at an existing key is found by lookup. -/
lemma lookup_map_replace (d : Doc) (k : String) (v : DVal)
    (h : d.any (fun kv => kv.1 = k) = true) :
    (d.map (fun kv => if kv.1 = k then (k, v) else kv)).lookup k = some v := by
  induction d with
  | nil => simp at h
  | cons hd tl ih =>
    obtain ⟨k1, w⟩ := hd
    by_cases hk : k1 = k
    · subst hk
      rw [List.map_cons,
        if_pos (show ((k1, w) : String × DVal).1 = k1 from rfl)]
      simp [List.lookup]
    · simp only [List.any_cons, Bool.or_eq_true, decide_eq_true_eq] at h
      have h' : tl.any (fun kv => kv.1 = k) = true := by
        rcases h with h | h
        · exact absurd h hk
        · exact h
      have hbk : (k == k1) = false := by
        simp only [beq_eq_false_iff_ne, ne_eq]
        exact fun he => hk he.symm
      rw [List.map_cons,
        if_neg (show ¬((k1, w) : String × DVal).1 = k from hk)]
      simp [List.lookup, hbk, ih h']

/-- A key absent from a document is found after appending it. -/
lemma lookup_append_missing (d : Doc) (k : String) (v : DVal)
    (h : d.any (fun kv => kv.1 = k) = false) :
    (d ++ [(k, v)]).lookup k = some v := by
  induction d with
  | nil => simp [List.lookup]
  | cons hd tl ih =>
    obtain ⟨k1, w⟩ := hd
    simp only [List.any_cons, Bool.or_eq_false_iff, decide_eq_false_iff_not] at h
    have hbk : (k == k1) = false := by
      simp [beq_eq_false_iff_ne]
      exact fun he => h.1 he.symm
    have h2 : tl.any (fun kv => kv.1 = k) = false := by
      simpa using h.2
    simp [List.lookup, hbk, ih h2]

/-- Python dict assignment makes the assigned value the one lookup finds. -/
lemma lookup_setField_self (d : Doc) (k : String) (v : DVal) :
    (setField d k v).lookup k = some v := by
  unfold setField
  split
  case isTrue h => exact lookup_map_replace d k v h
  case isFalse h =>
    exact lookup_append_missing d k v (Bool.not_eq_true _ ▸ eq_false_of_ne_true h)

/-- After the `_id`-stringifying loop, `_id` holds the string form. -/
lemma lookup_stringifyId (d : Doc) :
    (stringifyId d).lookup "_id"
      = some (.vstr (pyStr ((d.lookup "_id").getD .vnull))) :=
  lookup_setField_self d "_id" _

/-- Membership in a stringified batch yields a string `_id`. -/
lemma mem_map_stringifyId {l : List Doc} {d : Doc}
    (hd : d ∈ l.map stringifyId) :
    ∃ sid, d.lookup "_id" = some (.vstr sid) := by
  obtain ⟨d0, _, rfl⟩ := List.mem_map.mp hd
  exact ⟨_, lookup_stringifyId d0⟩

/-- C8: every record returned by any list endpoint carries `_id` as a plain
string value, never the store-internal identifier representation — the
handlers overwrite `_id` with `str(d.get("_id"))` before returning. -/
theorem c8_list_ids_are_strings :
    (∀ (sto : Store) (n : Int) (docs : List Doc),
      list_channels n sto = .ok docs →
      ∀ d ∈ docs, ∃ sid, d.lookup "_id" = some (.vstr sid)) ∧
    (∀ (sto : Store) (cid : Option String) (n : Int) (docs : List Doc),
      list_messages cid n sto = .ok docs →
      ∀ d ∈ docs, ∃ sid, d.lookup "_id" = some (.vstr sid)) ∧
    (∀ (sto : Store) (n : Int) (docs : List Doc),
      list_projects n sto = .ok docs →
      ∀ d ∈ docs, ∃ sid, d.lookup "_id" = some (.vstr sid)) ∧
    (∀ (sto : Store) (n : Int) (docs : List Doc),
      list_devices n sto = .ok docs →
      ∀ d ∈ docs, ∃ sid, d.lookup "_id" = some (.vstr sid)) := by
  refine ⟨?_, ?_, ?_, ?_⟩
  · intro sto n docs h d hd
    simp only [list_channels] at h
    split at h
    · injection h with h2; subst h2; exact mem_map_stringifyId hd
    · exact absurd h (by simp)
  · intro sto cid n docs h d hd
    simp only [list_messages] at h
    split at h
    · injection h with h2; subst h2; exact mem_map_stringifyId hd
    · exact absurd h (by simp)
  · intro sto n docs h d hd
    simp only [list_projects] at h
    split at h
    · injection h with h2; subst h2; exact mem_map_stringifyId hd
    · exact absurd h (by simp)
  · intro sto n docs h d hd
    simp only [list_devices] at h
    split at h
    · injection h with h2; subst h2; exact mem_map_stringifyId hd
    · exact absurd h (by simp)

/-- C8, witness: a concrete store whose stored channel document has an
internal identifier comes back with a string `_id`. -/
theorem c8_witness :
    ∃ sid, (stringifyId [("name", DVal.vstr "general"),
      ("_id", DVal.voidRef "65abc")]).lookup "_id" = some (DVal.vstr sid) :=
  c8_list_ids_are_strings.1
    ⟨1, [("channel", [[("name", .vstr "general"), ("_id", .voidRef "65abc")]])]⟩
    5 [stringifyId [("name", .vstr "general"), ("_id", .voidRef "65abc")]]
    rfl (stringifyId [("name", .vstr "general"), ("_id", .voidRef "65abc")])
    (by simp)

/-- C5: each list route rejects a limit that is non-positive or above its
bound (100 for channels/projects, 200 for messages/devices) with a boundary
validation error whose result does not depend on the store state, and accepts
every limit inside `[1, bound]`. -/
theorem c5_limit_bounds (n : Int) :
    ((n ≤ 0 ∨ 100 < n) → ∀ sto : Store,
      list_channels n sto = .error (.validationError ["limit"]) ∧
      list_projects n sto = .error (.validationError ["limit"])) ∧
    ((n ≤ 0 ∨ 200 < n) → ∀ sto : Store,
      list_messages none n sto = .error (.validationError ["limit"]) ∧
      list_devices n sto = .error (.validationError ["limit"])) ∧
    (1 ≤ n → n ≤ 100 → ∀ sto : Store,
      (∃ docs, list_channels n sto = .ok docs) ∧
      (∃ docs, list_projects n sto = .ok docs)) ∧
    (1 ≤ n → n ≤ 200 → ∀ sto : Store,
      (∃ docs, list_messages none n sto = .ok docs) ∧
      (∃ docs, list_devices n sto = .ok docs)) := by
  refine ⟨?_, ?_, ?_, ?_⟩
  · intro h sto
    have hc : ¬(1 ≤ n ∧ n ≤ 100) := by omega
    constructor <;> simp [list_channels, list_projects, hc]
  · intro h sto
    have hc : ¬(1 ≤ n ∧ n ≤ 200) := by omega
    constructor <;> simp [list_messages, list_devices, hc]
  · intro h1 h2 sto
    constructor
    · exact ⟨(get_documents "channel" [] n sto).map stringifyId,
        by simp [list_channels, h1, h2]⟩
    · exact ⟨(get_documents "project" [] n sto).map stringifyId,
        by simp [list_projects, h1, h2]⟩
  · intro h1 h2 sto
    constructor
    · exact ⟨(get_documents "message" [] n sto).map stringifyId,
        by simp [list_messages, h1, h2]⟩
    · exact ⟨(get_documents "device" [] n sto).map stringifyId,
        by simp [list_devices, h1, h2]⟩

/-- C5, witness: limit 0 is rejected on channels; limit 200 is accepted on
devices, both on a concrete empty store. -/
theorem c5_limit_bounds_witness :
    (list_channels 0 ⟨0, []⟩ = .error (.validationError ["limit"])) ∧
    (∃ docs, list_devices 200 ⟨0, []⟩ = .ok docs) :=
  ⟨((c5_limit_bounds 0).1 (Or.inl (by decide)) ⟨0, []⟩).1,
   ((c5_limit_bounds 200).2.2.2 (by decide) (by decide) ⟨0, []⟩).2⟩

/-- C1, counterexample: `POST /payments/intent` with `amount_cents = -1`
passes the request-body model (which has no lower bound) and then fails
inside the handler when `PaymentIntent(...)` enforces `ge=0` — an uncaught
exception surfaced as a server error, not a client-error validation failure;
the claim that the rejection is a validation failure with a client-error
status is therefore false. -/
theorem c1_counterexample :
    create_payment_intent
      ⟨some (.jstr "a@b.com"), some (.jstr "pro"), some (.jint (-1)), none⟩
      ⟨0, []⟩ = .error (.internalError ["amount_cents"]) ∧
    isClientValidationError (create_payment_intent
      ⟨some (.jstr "a@b.com"), some (.jstr "pro"), some (.jint (-1)), none⟩
      ⟨0, []⟩) = false := by
  exact ⟨rfl, rfl⟩

/-- C1, amended: a negative `amount_cents` is accepted by the request-body
model, then rejected inside the handler by the `PaymentIntent` bound before
any record is persisted; the failure surfaces as an uncaught exception (a
server error naming `amount_cents`), not as a client-error validation
response. -/
theorem c1_negative_amount_is_server_error (e p c : String) (n : Int)
    (h : n < 0) :
    CreatePaymentRequest.validate
      ⟨some (.jstr e), some (.jstr p), some (.jint n), some (.jstr c)⟩
      = .ok ⟨e, p, n, c⟩ ∧
    ∀ sto : Store,
      create_payment_intent
        ⟨some (.jstr e), some (.jstr p), some (.jint n), some (.jstr c)⟩ sto
        = .error (.internalError ["amount_cents"]) := by
  have hv : CreatePaymentRequest.validate
      ⟨some (.jstr e), some (.jstr p), some (.jint n), some (.jstr c)⟩
      = .ok ⟨e, p, n, c⟩ := rfl
  refine ⟨hv, fun sto => ?_⟩
  have hm : mkPaymentIntent ⟨e, p, n, c⟩ = .error ["amount_cents"] := by
    unfold mkPaymentIntent
    rw [if_neg (show ¬(0 ≤ n) by omega)]
  simp [create_payment_intent, hv, hm]

/-- C1, witness for the amended theorem at `amount_cents = -1` on a concrete
empty store. -/
theorem c1_negative_amount_witness :
    create_payment_intent
      ⟨some (.jstr "a@b.com"), some (.jstr "pro"), some (.jint (-1)),
       some (.jstr "USD")⟩ ⟨0, []⟩
      = .error (.internalError ["amount_cents"]) :=
  (c1_negative_amount_is_server_error "a@b.com" "pro" "USD" (-1)
    (by decide)).2 ⟨0, []⟩

/-- Appending a document to a kind collection extends exactly that kind. -/
lemma collGet_collAdd (cs : List (String × List Doc)) (kind : String)
    (d : Doc) :
    collGet (collAdd cs kind d) kind = collGet cs kind ++ [d] := by
  induction cs with
  | nil => simp [collAdd, collGet]
  | cons hd tl ih =>
    obtain ⟨k, ds⟩ := hd
    by_cases h : k = kind
    · simp [collAdd, collGet, h]
    · simp [collAdd, collGet, h, ih]

/-- C7: a valid `POST /payments/intent` payload yields a response with status
`"created"`, and the persisted intent record has status `"created"`; when the
payload omits `currency`, the persisted record carries currency `"USD"`. -/
theorem c7_payment_intent_created (e p : String) (n : Int) (sto : Store)
    (h : 0 ≤ n) :
    ∃ id sto',
      create_payment_intent
        ⟨some (.jstr e), some (.jstr p), some (.jint n), none⟩ sto
        = .ok (⟨id, "created"⟩, sto') ∧
      sto'.get "paymentintent" = sto.get "paymentintent" ++
        [[("user_email", .vstr e), ("plan", .vstr p),
          ("amount_cents", .vint n), ("currency", .vstr "USD"),
          ("status", .vstr "created"), ("_id", .voidRef id)]] := by
  have hv : CreatePaymentRequest.validate
      ⟨some (.jstr e), some (.jstr p), some (.jint n), none⟩
      = .ok ⟨e, p, n, "USD"⟩ := rfl
  have hm : mkPaymentIntent ⟨e, p, n, "USD"⟩
      = .ok ⟨e, p, n, "USD", "created"⟩ := by
    unfold mkPaymentIntent
    rw [if_pos h]
  refine ⟨"oid" ++ toString sto.nextId,
    ⟨sto.nextId + 1,
     collAdd sto.colls "paymentintent"
       ((⟨e, p, n, "USD", "created"⟩ : PaymentIntent).toDoc ++
        [("_id", .voidRef ("oid" ++ toString sto.nextId))])⟩, ?_, ?_⟩
  · simp [create_payment_intent, hv, hm, create_document]
  · simp [Store.get, collGet_collAdd, PaymentIntent.toDoc]

/-- C7, witness at the spec scenario payload
`{"user_email":"a@b.com","plan":"pro","amount_cents":999}` on a concrete
empty store. -/
theorem c7_payment_intent_created_witness :
    ∃ id sto',
      create_payment_intent
        ⟨some (.jstr "a@b.com"), some (.jstr "pro"), some (.jint 999), none⟩
        ⟨0, []⟩ = .ok (⟨id, "created"⟩, sto') ∧
      sto'.get "paymentintent" = Store.get ⟨0, []⟩ "paymentintent" ++
        [[("user_email", .vstr "a@b.com"), ("plan", .vstr "pro"),
          ("amount_cents", .vint 999), ("currency", .vstr "USD"),
          ("status", .vstr "created"), ("_id", .voidRef id)]] :=
  c7_payment_intent_created "a@b.com" "pro" 999 ⟨0, []⟩ (by decide)

/-- C9: the diagnostic probe is a total function of any store state — every
failure path of `list_collection_names` is caught into the report — whose
configuration slots only ever hold the presence markers, never a
configuration value; in the unconfigured state (no handle) the report keeps
`collections` empty, signals the uninitialized store, and keeps the
connection status `"Not Connected"`. -/
theorem c9_probe_never_reveals (db : Option DBHandle) (env : Env) :
    ((test_database db env).database_url = some "✅ Set" ∨
     (test_database db env).database_url = some "❌ Not Set") ∧
    ((test_database db env).database_name = some "✅ Set" ∨
     (test_database db env).database_name = some "❌ Not Set") ∧
    (db = none →
      (test_database db env).collections = [] ∧
      (test_database db env).database = "⚠️  Available but not initialized" ∧
      (test_database db env).connection_status = "Not Connected") := by
  refine ⟨?_, ?_, ?_⟩
  · by_cases h : envTruthy env.databaseUrl
    · cases db with
      | none => left; simp [test_database, h]
      | some hdb =>
        left
        cases hc : hdb.listCollectionNames <;> simp [test_database, h, hc]
    · cases db with
      | none => right; simp [test_database, h]
      | some hdb =>
        right
        cases hc : hdb.listCollectionNames <;> simp [test_database, h, hc]
  · by_cases h : envTruthy env.databaseName
    · cases db with
      | none => left; simp [test_database, h]
      | some hdb =>
        left
        cases hc : hdb.listCollectionNames <;> simp [test_database, h, hc]
    · cases db with
      | none => right; simp [test_database, h]
      | some hdb =>
        right
        cases hc : hdb.listCollectionNames <;> simp [test_database, h, hc]
  · intro hdb
    subst hdb
    refine ⟨?_, ?_, ?_⟩ <;> simp [test_database]

/-- C9, witness: the probe on the fully unconfigured state reports the empty
collection preview and the uninitialized store. -/
theorem c9_probe_witness :
    (test_database none ⟨none, none⟩).collections = [] ∧
    (test_database none ⟨none, none⟩).database
      = "⚠️  Available but not initialized" :=
  ⟨((c9_probe_never_reveals none ⟨none, none⟩).2.2 rfl).1,
   ((c9_probe_never_reveals none ⟨none, none⟩).2.2 rfl).2.1⟩
